import Mathlib

/-!
# HK_Tauri monitoring client: state synchronisation layer

A shallow embedding of the state-handling code of `frontend/src/App.jsx` and
`frontend/src/components/VideoFeed.jsx`.

React state cells become record fields, a functional updater passed to a
setter becomes a function on the previous value, and an asynchronous handler
becomes a function of the state at resolution time and of whatever the
environment delivered (clock readings, random draws, the HTTP outcome).
-/

namespace HKTauri

/-! ## JavaScript values -/

/-- The JavaScript values that can flow through the handlers: the primitives
that JSON can carry plus `undefined` (a missing property). Numbers are finite
and are kept exact; `obj` stands for any object or array, identified by a
reference. -/
inductive JsVal where
  | undefined : JsVal
  | null : JsVal
  | bool (b : Bool) : JsVal
  | num (q : ℚ) : JsVal
  | str (s : String) : JsVal
  | obj (ref : Nat) : JsVal
  deriving DecidableEq

namespace JsVal

/-- JavaScript truthiness, as used by `if (v)`, `v && ...` and `v || ...`. -/
def truthy : JsVal → Bool
  | undefined => false
  | null => false
  | bool b => b
  | num q => decide (q ≠ 0)
  | str s => decide (s ≠ "")
  | obj _ => true

/-- A default parameter value `p = d`: the default is taken exactly when the
argument is `undefined`. -/
def orDefault (v d : JsVal) : JsVal :=
  match v with
  | undefined => d
  | w => w

end JsVal

/-! ## Log buffer (`App.jsx`, lines 15 and 30-32) -/

/-- One displayed log entry. -/
structure LogEntry where
  id : Nat
  title : JsVal
  message : JsVal
  severity : JsVal
  attachment : JsVal
  time : JsVal
  deriving DecidableEq

/-- What the client clock returns to one `addLog` call: `Date.now()` and
`new Date().toLocaleTimeString()`. -/
structure Clock where
  now : Nat
  timeString : String
  deriving DecidableEq

/-- The entry literal built inside `addLog`; `attachment` has the default
`null`. -/
def mkEntry (clk : Clock) (title message severity attachment : JsVal) : LogEntry :=
  { id := clk.now
    title := title
    message := message
    severity := severity
    attachment := attachment.orDefault JsVal.null
    time := JsVal.str clk.timeString }

/-- The call `Array.prototype.slice(0, n)` for a non-negative `n`. -/
def slice0 (n : Nat) (xs : List LogEntry) : List LogEntry :=
  xs.take n

/-- The updater that `addLog` hands to `setLogs`:
`prev => [entry, ...prev].slice(0, 50)`. A call that omits the fourth argument
passes `undefined` for it. -/
def addLog (clk : Clock) (title message severity attachment : JsVal)
    (prev : List LogEntry) : List LogEntry :=
  slice0 50 (mkEntry clk title message severity attachment :: prev)

/-- One call of `addLog`, as data: the clock reading and the four arguments. -/
structure LogCall where
  clk : Clock
  title : JsVal
  message : JsVal
  severity : JsVal
  attachment : JsVal
  deriving DecidableEq

/-- The entry a call inserts. -/
def LogCall.entry (c : LogCall) : LogEntry :=
  mkEntry c.clk c.title c.message c.severity c.attachment

/-- Apply a sequence of `addLog` calls, first call first. -/
def addLogs (calls : List LogCall) (prev : List LogEntry) : List LogEntry :=
  calls.foldl (fun buf c => addLog c.clk c.title c.message c.severity c.attachment buf) prev

/-- The payload of a `log_message` push event, as the handler sees it: either
`null`/`undefined` (reading a property of it throws) or a value whose four
properties are read, a missing property reading as `undefined`. -/
inductive Payload where
  | nullish : Payload
  | fields (title message severity attachment : JsVal) : Payload
  deriving DecidableEq

/-- The `log_message` handler of the Socket.IO effect (lines 38-40):
`addLog(data.title, data.message, data.severity, data.attachment)`. When the
property reads throw, `addLog` is never reached and the buffer is untouched. -/
def onLogMessage (clk : Clock) (data : Payload) (prev : List LogEntry) : List LogEntry :=
  match data with
  | Payload.nullish => prev
  | Payload.fields t m sv a => addLog clk t m sv a prev

/-- The event is missing a required field: the payload is nullish, so that it
has no fields at all, or its `title`, `message` or `severity` reads
`undefined`. -/
def Payload.incomplete : Payload → Bool
  | Payload.nullish => true
  | Payload.fields t m sv _ =>
    decide (t = JsVal.undefined) || decide (m = JsVal.undefined) || decide (sv = JsVal.undefined)

/-! ## Historical log fetch (`App.jsx`, lines 330-335) -/

/-- One element of the `logs` array of the `/logs` response. -/
structure RawLog where
  id : JsVal
  title : JsVal
  message : JsVal
  severity : JsVal
  attachment : JsVal
  time : JsVal
  deriving DecidableEq

/-- The object literal `{ ...l, id: i }`. -/
def withIndexId (l : RawLog) (i : Nat) : LogEntry :=
  { id := i
    title := l.title
    message := l.message
    severity := l.severity
    attachment := l.attachment
    time := l.time }

/-- The call `arr.map((l, i) => ({ ...l, id: i }))`, with the index of the next
element carried along. -/
def mapWithIndexFrom (i : Nat) : List RawLog → List LogEntry
  | [] => []
  | l :: ls => withIndexId l i :: mapWithIndexFrom (i + 1) ls

/-- What the `/logs?lines=100` request delivers to the second `then`: nothing
(the request or the JSON parse failed), or the parsed body, whose `logs`
property is an array or is not one. -/
inductive LogsOutcome where
  | failed : LogsOutcome
  | body (logs : Option (List RawLog)) : LogsOutcome
  deriving DecidableEq

/-- The refresh-logs click handler, at resolution:
`setLogs(data.logs.map((l, i) => ({ ...l, id: i })) || [])`. The mapped array
is always truthy, so the `|| []` alternative is never taken; when `data.logs`
is not an array the `map` call throws and `setLogs` is not reached. -/
def refreshLogs (out : LogsOutcome) (prev : List LogEntry) : List LogEntry :=
  match out with
  | LogsOutcome.failed => prev
  | LogsOutcome.body none => prev
  | LogsOutcome.body (some ls) => mapWithIndexFrom 0 ls

/-! ## Application state (`App.jsx`, lines 9-17) -/

/-- The constant `BACKEND_URL`. -/
def BACKEND_URL : String := "http://localhost:8000"

/-- The constant `VIDEO_STREAM_URL`. -/
def VIDEO_STREAM_URL : String := BACKEND_URL ++ "/video_feed"

/-- The `stats` cell. The gauges hold results of `Math.round`. -/
structure Stats where
  fps : Int
  cpu : Int
  defects : Nat
  deriving DecidableEq

/-- The five state cells of `App`. -/
structure AppState where
  streaming : Bool
  stats : Stats
  logs : List LogEntry
  activeTab : String
  debugImage : JsVal
  deriving DecidableEq

/-- The initial values given to `useState`. -/
def AppState.init : AppState :=
  { streaming := false
    stats := { fps := 0, cpu := 0, defects := 0 }
    logs := []
    activeTab := "dashboard"
    debugImage := JsVal.null }

/-- The setter `setLogs` called with an updater function. -/
def setLogs (f : List LogEntry → List LogEntry) (s : AppState) : AppState :=
  { s with logs := f s.logs }

/-- The setter `setDebugImage` called with a value. -/
def setDebugImage (v : JsVal) (s : AppState) : AppState :=
  { s with debugImage := v }

/-- The setter `setStats` called with an updater function. -/
def setStats (f : Stats → Stats) (s : AppState) : AppState :=
  { s with stats := f s.stats }

/-- The click handler `toggleStream`: `setStreaming(!streaming)`. -/
def toggleStream (s : AppState) : AppState :=
  { s with streaming := !s.streaming }

/-! ## Status polling (`App.jsx`, lines 20-28 and 54-87) -/

/-- The function `Math.round`: the nearest integer, a tie going up. -/
def mathRound (x : ℚ) : Int :=
  Int.floor (x + 1 / 2)

/-- What `fetchStats` gets from the `/status` request: a failure (the request
or the parse rejected, or the body has no properties to read), or the
`camera_connected` property of the parsed body. -/
inductive PollOutcome where
  | failed : PollOutcome
  | body (camera_connected : JsVal) : PollOutcome
  deriving DecidableEq

/-- The updater of `fetchStats`, given the two `Math.random()` draws:
fresh gauges, `defects: prev.defects`. -/
def refreshGauges (r1 r2 : ℚ) (prev : Stats) : Stats :=
  { fps := mathRound (28 + r1 * 4)
    cpu := mathRound (15 + r2 * 10)
    defects := prev.defects }

/-- The body of `fetchStats` from the point where the response is in: the only
test is `if (data.camera_connected)`; a failure is swallowed by the empty
`catch`. The `streaming` cell is never read. -/
def fetchStats (out : PollOutcome) (r1 r2 : ℚ) (s : AppState) : AppState :=
  match out with
  | PollOutcome.failed => s
  | PollOutcome.body cc =>
    if cc.truthy then setStats (refreshGauges r1 r2) s else s

/-- The repeating timers the two effects keyed on `[streaming]` create. -/
inductive Timer where
  | simulateStats : Timer
  | demoLogInterval : Timer
  | fetchStatsInterval : Timer
  deriving DecidableEq

/-- The first effect (lines 20-28): `if (!streaming) return;` then one timer of
period 1000 with an empty body. -/
def simulateEffect (streaming : Bool) : List (Timer × Nat) :=
  if !streaming then [] else [(Timer.simulateStats, 1000)]

/-- The polling effect (lines 54-87): both `setInterval` calls are made on every
run of the effect, whatever `streaming` is. -/
def pollingEffect (_streaming : Bool) : List (Timer × Nat) :=
  [(Timer.demoLogInterval, 2000), (Timer.fetchStatsInterval, 2000)]

/-! ## Image upload (`App.jsx`, lines 247-277) -/

/-- How the `/predict/image` request ends: a thrown error caught by the
`catch` (from `fetch`, from `res.json()`, or from reading a property of a
nullish body), a response with `res.ok` false, or an ok response whose parsed
body has the given `image_url` property. -/
inductive UploadOutcome where
  | threw (message : String) : UploadOutcome
  | notOk (statusText : String) : UploadOutcome
  | ok (image_url : JsVal) : UploadOutcome
  deriving DecidableEq

/-- The handler up to the `await fetch`: the progress entry. -/
def uploadBegin (c1 : Clock) (s : AppState) : AppState :=
  setLogs (addLog c1 (JsVal.str "调试") (JsVal.str "正在上传图片...") (JsVal.str "medium")
    JsVal.undefined) s

/-- The handler after the `await fetch`. -/
def uploadResolve (c2 : Clock) (out : UploadOutcome) (s : AppState) : AppState :=
  match out with
  | UploadOutcome.ok url =>
    if url.truthy then
      setLogs (addLog c2 (JsVal.str "调试") (JsVal.str "图片检测完成") (JsVal.str "medium") url)
        (setDebugImage url s)
    else
      setLogs (addLog c2 (JsVal.str "错误") (JsVal.str "未返回图片地址") (JsVal.str "high")
        JsVal.undefined) s
  | UploadOutcome.notOk statusText =>
    setLogs (addLog c2 (JsVal.str "错误") (JsVal.str ("上传失败: " ++ statusText))
      (JsVal.str "high") JsVal.undefined) s
  | UploadOutcome.threw message =>
    setLogs (addLog c2 (JsVal.str "错误") (JsVal.str ("连接失败: " ++ message))
      (JsVal.str "high") JsVal.undefined) s

/-- The whole `onChange` handler of the file input, with nothing else scheduled
between its two halves. `file` is `e.target.files[0]`; without a file the
handler returns at once. -/
def onUploadChange (file : Option Nat) (c1 c2 : Clock) (out : UploadOutcome)
    (s : AppState) : AppState :=
  match file with
  | none => s
  | some _ => uploadResolve c2 out (uploadBegin c1 s)

/-! ## Settings panel (`App.jsx`, lines 405-439) -/

/-- The three state cells of `SettingsPanel`. A load stores whatever the
backend sent, so the two settings are JavaScript values. -/
structure SettingsPanelState where
  conf : JsVal
  imgsz : JsVal
  loading : Bool
  deriving DecidableEq

/-- The initial values given to `useState`: `0.25`, `640`, `false`. -/
def SettingsPanelState.init : SettingsPanelState :=
  { conf := JsVal.num (1 / 4), imgsz := JsVal.num 640, loading := false }

/-- The object `{ conf, imgsz }` that `saveSettings` serialises as the request
body. -/
structure SettingsBody where
  conf : JsVal
  imgsz : JsVal
  deriving DecidableEq

/-- The request body built from the current edit buffer. -/
def saveBody (p : SettingsPanelState) : SettingsBody :=
  { conf := p.conf, imgsz := p.imgsz }

/-- How the GET of `/config/settings` ends: a rejection (logged to the console
by the `catch`), or a parsed body with the given `conf` and `imgsz`
properties. -/
inductive LoadOutcome where
  | failed : LoadOutcome
  | body (conf imgsz : JsVal) : LoadOutcome
  deriving DecidableEq

/-- The mount effect of `SettingsPanel`, at resolution:
`if (data.conf) setConf(data.conf); if (data.imgsz) setImgsz(data.imgsz);`. -/
def loadSettings (out : LoadOutcome) (p : SettingsPanelState) : SettingsPanelState :=
  match out with
  | LoadOutcome.failed => p
  | LoadOutcome.body c i =>
    let p1 := if c.truthy then { p with conf := c } else p
    if i.truthy then { p1 with imgsz := i } else p1

/-- How the POST of `/config/settings` ends: a thrown error caught by the
`catch`, or a parsed body with the given `status` property. -/
inductive SaveOutcome where
  | threw (message : String) : SaveOutcome
  | body (status : JsVal) : SaveOutcome
  deriving DecidableEq

/-- The first statement of `saveSettings`: `setLoading(true)`. -/
def saveBegin (p : SettingsPanelState) : SettingsPanelState :=
  { p with loading := true }

/-- The rest of `saveSettings`, from the parsed response on: one `addLog`
chosen by `data.status === 'updated'`, or the one of the `catch`; then
`setLoading(false)` in the `finally`. `addLog` is the prop handed down by
`App`, so the entry lands in the `logs` cell of `App`. -/
def saveResolve (clk : Clock) (out : SaveOutcome) (p : SettingsPanelState)
    (s : AppState) : SettingsPanelState × AppState :=
  let s1 :=
    match out with
    | SaveOutcome.body status =>
      if status = JsVal.str "updated" then
        setLogs (addLog clk (JsVal.str "配置") (JsVal.str "系统参数已保存") (JsVal.str "info")
          JsVal.undefined) s
      else
        setLogs (addLog clk (JsVal.str "错误") (JsVal.str "保存失败") (JsVal.str "high")
          JsVal.undefined) s
    | SaveOutcome.threw message =>
      setLogs (addLog clk (JsVal.str "错误") (JsVal.str ("保存异常: " ++ message))
        (JsVal.str "high") JsVal.undefined) s
  ({ p with loading := false }, s1)

/-- The whole of `saveSettings`, with nothing else scheduled while the request
is in flight. -/
def saveSettings (clk : Clock) (out : SaveOutcome) (p : SettingsPanelState)
    (s : AppState) : SettingsPanelState × AppState :=
  saveResolve clk out (saveBegin p) s

/-! ## Video feed (`VideoFeed.jsx`) -/

/-- The props of `VideoFeed`. -/
structure VideoFeedProps where
  streamUrl : String
  isConnected : Bool
  deriving DecidableEq

/-- The three state cells of `VideoFeed`. -/
structure VideoFeedState where
  isLoading : Bool
  error : Bool
  fullScreen : Bool
  deriving DecidableEq

/-- The initial values given to `useState`. -/
def VideoFeedState.init : VideoFeedState :=
  { isLoading := true, error := false, fullScreen := false }

namespace VideoFeed

/-- The body of the effect keyed on `[streamUrl]`. -/
def streamUrlEffect (v : VideoFeedState) : VideoFeedState :=
  { v with isLoading := true, error := false }

/-- The `onLoad` handler of the `img`. -/
def onLoad (v : VideoFeedState) : VideoFeedState :=
  { v with isLoading := false }

/-- The `onError` handler of the `img`. -/
def onError (v : VideoFeedState) : VideoFeedState :=
  { v with error := true }

/-- The click handler of the full-screen button. -/
def toggleFullScreen (v : VideoFeedState) : VideoFeedState :=
  { v with fullScreen := !v.fullScreen }

/-- The first render: initial state, then the effect runs once. -/
def mount : VideoFeedState :=
  streamUrlEffect VideoFeedState.init

/-- A later render with new props: the effect runs again exactly when
`streamUrl` differs from the one of the previous render. -/
def rerender (old new : VideoFeedProps) (v : VideoFeedState) : VideoFeedState :=
  if new.streamUrl = old.streamUrl then v else streamUrlEffect v

/-- The `img` element exists only in the `isConnected` branch. -/
def imgRendered (p : VideoFeedProps) : Bool :=
  p.isConnected

/-- The `img` is rendered and its `display` style is `block`. -/
def frameVisible (p : VideoFeedProps) (v : VideoFeedState) : Bool :=
  p.isConnected && !(v.isLoading || v.error)

/-- The spinner: `isLoading && isConnected && !error`. -/
def spinnerShown (p : VideoFeedProps) (v : VideoFeedState) : Bool :=
  v.isLoading && p.isConnected && !v.error

/-- The error overlay: `error && isConnected`. -/
def errorShown (p : VideoFeedProps) (v : VideoFeedState) : Bool :=
  v.error && p.isConnected

/-- The status label shows the live text exactly when `isConnected`. -/
def liveLabelShown (p : VideoFeedProps) : Bool :=
  p.isConnected

end VideoFeed

/-- A terminal signal of the `img` for the current `streamUrl`. -/
inductive Signal where
  | load : Signal
  | error : Signal
  deriving DecidableEq

/-- The handler a signal runs. -/
def VideoFeed.signal (v : VideoFeedState) : Signal → VideoFeedState
  | Signal.load => VideoFeed.onLoad v
  | Signal.error => VideoFeed.onError v

/-- A sequence of signals, first signal first. -/
def VideoFeed.signals (sigs : List Signal) (v : VideoFeedState) : VideoFeedState :=
  sigs.foldl VideoFeed.signal v

/-- The props `App` passes to `VideoFeed` (lines 195-198). -/
def videoFeedProps (s : AppState) : VideoFeedProps :=
  { streamUrl := if s.streaming then VIDEO_STREAM_URL else ""
    isConnected := s.streaming }

/-! ## The dashboard: `App` together with the `VideoFeed` it renders -/

/-- The `App` cells and the state of the `VideoFeed` instance, which exists
only while the dashboard tab is shown (line 190). -/
structure Screen where
  app : AppState
  feed : Option VideoFeedState
  deriving DecidableEq

/-- The first render: the dashboard tab is active, so `VideoFeed` mounts. -/
def Screen.init : Screen :=
  { app := AppState.init, feed := some VideoFeed.mount }

/-- What React does to the `VideoFeed` instance when `App` re-renders from
`old` to `new`: unmount it off the dashboard, mount a fresh one when the
dashboard comes back, otherwise re-render it with the new props. -/
def reconcileFeed (old new : AppState) (feed : Option VideoFeedState) :
    Option VideoFeedState :=
  if new.activeTab = "dashboard" then
    match feed with
    | some v => some (VideoFeed.rerender (videoFeedProps old) (videoFeedProps new) v)
    | none => some VideoFeed.mount
  else none

/-- The things that can happen to the dashboard's stream session. -/
inductive Event where
  | toggleStream : Event
  | setActiveTab (tab : String) : Event
  | frameLoad : Event
  | frameError : Event
  | toggleFullScreen : Event
  deriving DecidableEq

/-- Apply a handler of the `img`, which can fire only while the `img` exists. -/
def onImg (f : VideoFeedState → VideoFeedState) (sc : Screen) : Screen :=
  match sc.feed with
  | some v =>
    if VideoFeed.imgRendered (videoFeedProps sc.app) then { sc with feed := some (f v) } else sc
  | none => sc

/-- One event. -/
def Screen.step (sc : Screen) : Event → Screen
  | Event.toggleStream =>
    { app := toggleStream sc.app
      feed := reconcileFeed sc.app (toggleStream sc.app) sc.feed }
  | Event.setActiveTab tab =>
    { app := { sc.app with activeTab := tab }
      feed := reconcileFeed sc.app { sc.app with activeTab := tab } sc.feed }
  | Event.frameLoad => onImg VideoFeed.onLoad sc
  | Event.frameError => onImg VideoFeed.onError sc
  | Event.toggleFullScreen =>
    { sc with feed := sc.feed.map VideoFeed.toggleFullScreen }

/-- A sequence of events, first event first. -/
def Screen.run (es : List Event) (sc : Screen) : Screen :=
  es.foldl Screen.step sc

/-- Bookkeeping for the words "an error has been signalled for the current
stream URL", read off the event sequence alone: a toggle changes the URL and
so clears the mark, an error signal delivered to an existing `img` sets it. -/
def errorSignalled : Screen → List Event → Bool → Bool
  | _, [], mark => mark
  | sc, Event.toggleStream :: es, _ => errorSignalled (sc.step Event.toggleStream) es false
  | sc, Event.frameError :: es, mark =>
    errorSignalled (sc.step Event.frameError) es
      (mark || (sc.feed.isSome && VideoFeed.imgRendered (videoFeedProps sc.app)))
  | sc, e :: es, mark => errorSignalled (sc.step e) es mark

/-- The number of stream toggles in an event sequence. -/
def toggleCount (es : List Event) : Nat :=
  es.count Event.toggleStream

/-- The property "connected is true if and only if streaming is active and no
error has been signalled for the current stream URL", at the state reached
from the first render by the events `es`. -/
def ConnectedIffActiveAndNoError (es : List Event) : Prop :=
  (videoFeedProps (Screen.run es Screen.init).app).isConnected = true ↔
    ((Screen.run es Screen.init).app.streaming = true ∧
      errorSignalled Screen.init es false = false)

/-! ## Demo defect generator (`App.jsx`, lines 73-80) -/

/-- The array `defects` of the demo generator. -/
def demoDefects : List String :=
  ["表面划痕", "异物检测", "边缘缺损", "颜色异常"]

/-- The element `defects[Math.floor(r * defects.length)]` as it prints inside
the template string: an index outside the array reads `undefined`. -/
def demoDefect (r : ℚ) : String :=
  match Int.floor (r * demoDefects.length) with
  | Int.ofNat n => demoDefects.getD n "undefined"
  | Int.negSucc _ => "undefined"

/-- One tick of `demoLogInterval`, given the three `Math.random()` draws in the
order they are made. The effect is re-run on every change of `streaming`, so
the value the callback closes over is the current one. The literals `0.95` and
`0.5` are read as exact rationals. -/
def demoTick (r0 r1 r2 : ℚ) (clk : Clock) (s : AppState) : AppState :=
  if s.streaming && decide (19 / 20 < r0) then
    setStats (fun st => { st with defects := st.defects + 1 })
      (setLogs (addLog clk (JsVal.str "检测到缺陷") (JsVal.str ("检测到 " ++ demoDefect r1))
        (JsVal.str (if 1 / 2 < r2 then "high" else "medium")) JsVal.undefined) s)
  else s

/-! ## The writers of the `logs` and `stats` cells -/

/-- Every operation of `App.jsx` that calls `setLogs` or `setStats`, with what
the environment delivers to it, and the stream toggle that the demo generator
depends on. `saveResolve` is `saveSettings` of the settings panel, reaching
`logs` through the `addLog` prop. -/
inductive AppOp where
  | toggleStream : AppOp
  | logMessage (clk : Clock) (data : Payload) : AppOp
  | demoTick (r0 r1 r2 : ℚ) (clk : Clock) : AppOp
  | uploadBegin (c1 : Clock) : AppOp
  | uploadResolve (c2 : Clock) (out : UploadOutcome) : AppOp
  | saveResolve (clk : Clock) (out : SaveOutcome) (p : SettingsPanelState) : AppOp
  | refreshLogs (out : LogsOutcome) : AppOp
  | fetchStats (out : PollOutcome) (r1 r2 : ℚ) : AppOp

/-- Run one operation. -/
def AppOp.apply (s : AppState) : AppOp → AppState
  | AppOp.toggleStream => HKTauri.toggleStream s
  | AppOp.logMessage clk data => setLogs (onLogMessage clk data) s
  | AppOp.demoTick r0 r1 r2 clk => HKTauri.demoTick r0 r1 r2 clk s
  | AppOp.uploadBegin c1 => HKTauri.uploadBegin c1 s
  | AppOp.uploadResolve c2 out => HKTauri.uploadResolve c2 out s
  | AppOp.saveResolve clk out p => (HKTauri.saveResolve clk out p s).2
  | AppOp.refreshLogs out => { s with logs := HKTauri.refreshLogs out s.logs }
  | AppOp.fetchStats out r1 r2 => HKTauri.fetchStats out r1 r2 s

/-- Run a sequence of operations, first operation first. -/
def runOps (ops : List AppOp) (s : AppState) : AppState :=
  ops.foldl AppOp.apply s

/-- The number of entries a historical log fetch delivers; 0 for every other
operation and for a fetch that delivers no array. -/
def AppOp.fetched : AppOp → Nat
  | AppOp.refreshLogs (LogsOutcome.body (some ls)) => ls.length
  | _ => 0

/-! ## Settings panel controls (`App.jsx`, lines 455-485) -/

/-- The values a range input with `min="0.05" max="0.95" step="0.05"` can
report: `0.05 + k * 0.05` for `k = 0, ..., 18`. -/
def sliderValue (k : Fin 19) : ℚ :=
  1 / 20 + (k.val : ℚ) * (1 / 20)

/-- The `onChange` handler of the slider: `setConf(parseFloat(e.target.value))`. -/
def onSliderChange (k : Fin 19) (p : SettingsPanelState) : SettingsPanelState :=
  { p with conf := JsVal.num (sliderValue k) }

/-- The array `[320, 640, 1280]` the resolution buttons are made from. -/
def resolutionSizes : List ℚ :=
  [320, 640, 1280]

/-- The `onClick` handler of the resolution button at a position:
`setImgsz(size)`. -/
def onResolutionClick (b : Fin 3) (p : SettingsPanelState) : SettingsPanelState :=
  { p with imgsz := JsVal.num (resolutionSizes.get ⟨b.val, b.isLt⟩) }

/-- The operations that write the edit buffer. -/
inductive SettingsOp where
  | slide (k : Fin 19) : SettingsOp
  | pick (b : Fin 3) : SettingsOp
  | load (out : LoadOutcome) : SettingsOp

/-- Run one operation on the edit buffer. -/
def SettingsOp.apply (p : SettingsPanelState) : SettingsOp → SettingsPanelState
  | SettingsOp.slide k => onSliderChange k p
  | SettingsOp.pick b => onResolutionClick b p
  | SettingsOp.load out => loadSettings out p

/-- Run a sequence of operations on the edit buffer, first operation first. -/
def runSettings (ops : List SettingsOp) (p : SettingsPanelState) : SettingsPanelState :=
  ops.foldl SettingsOp.apply p

/-- The value is a number within `[0.05, 0.95]`. -/
def confInRange : JsVal → Bool
  | JsVal.num c => decide (1 / 20 ≤ c) && decide (c ≤ 19 / 20)
  | _ => false

/-- The value is one of the numbers 320, 640, 1280. -/
def imgszInSet : JsVal → Bool
  | JsVal.num i => decide (i = 320) || decide (i = 640) || decide (i = 1280)
  | _ => false

/-- The Settings ranges of the data model hold of an edit buffer. -/
def settingsInRange (p : SettingsPanelState) : Bool :=
  confInRange p.conf && imgszInSet p.imgsz

/-- A load response that cannot take the edit buffer out of the ranges: each of
`conf` and `imgsz` is falsy (so skipped by the load) or within its range. -/
def LoadOutcome.inRange : LoadOutcome → Bool
  | LoadOutcome.failed => true
  | LoadOutcome.body c i => (!c.truthy || confInRange c) && (!i.truthy || imgszInSet i)

/-- The loads among the operations all carry in-range responses. -/
def SettingsOp.inRange : SettingsOp → Bool
  | SettingsOp.load out => out.inRange
  | _ => true

/-! ## Theorems -/

/-- Re-slicing after a push forgets an earlier slice of the same width. -/
theorem slice0_cons_slice0 (n : Nat) (e : LogEntry) (xs : List LogEntry) :
    slice0 n (e :: slice0 n xs) = slice0 n (e :: xs) := by
  cases n with
  | zero => simp [slice0]
  | succ k => simp [slice0, List.take_take]

/-- Started from a sliced buffer, a run of `addLog` calls leaves the slice of
the whole insertion history, newest first. -/
theorem addLogs_slice0 (calls : List LogCall) (b0 : List LogEntry) :
    addLogs calls (slice0 50 b0) = slice0 50 ((calls.map LogCall.entry).reverse ++ b0) := by
  induction calls generalizing b0 with
  | nil => simp [addLogs]
  | cons c cs ih =>
    have hstep : addLogs (c :: cs) (slice0 50 b0)
        = addLogs cs (slice0 50 (LogCall.entry c :: slice0 50 b0)) := rfl
    rw [hstep, slice0_cons_slice0, ih]
    simp

/-- A buffer within the capacity is its own slice. -/
theorem slice0_of_length_le (n : Nat) (xs : List LogEntry) (h : xs.length ≤ n) :
    slice0 n xs = xs := by
  simp [slice0, List.take_of_length_le h]

/-- C1. Starting from a log buffer of at most 50 entries, after every `addLog`
call of any finite sequence the buffer holds at most 50 entries; the buffer
after the sequence is exactly the first 50 entries of the insertion history
listed newest first (the inserted entries in reverse order of insertion,
followed by the starting buffer), so it holds exactly 50 entries once the
history has reached 50 and what is missing is the tail of the history, the
oldest entries. -/
theorem addLog_capacity_and_recency (calls : List LogCall) (b0 : List LogEntry)
    (h0 : b0.length ≤ 50) :
    (∀ k, (addLogs (calls.take k) b0).length ≤ 50) ∧
    addLogs calls b0 = ((calls.map LogCall.entry).reverse ++ b0).take 50 ∧
    (calls.map LogCall.entry).reverse ++ b0
      = addLogs calls b0 ++ ((calls.map LogCall.entry).reverse ++ b0).drop 50 ∧
    (50 ≤ calls.length + b0.length → (addLogs calls b0).length = 50) := by
  have key : ∀ cs : List LogCall,
      addLogs cs b0 = ((cs.map LogCall.entry).reverse ++ b0).take 50 := by
    intro cs
    have h := addLogs_slice0 cs b0
    rw [slice0_of_length_le 50 b0 h0] at h
    exact h
  refine ⟨?_, key calls, ?_, ?_⟩
  · intro k
    rw [key]
    simp
  · rw [key, List.take_append_drop]
  · intro hlen
    rw [key]
    simp
    omega

/-- C1 at a full buffer: one more call keeps 50 entries. -/
theorem addLog_capacity_and_recency_witness :
    (List.replicate 50 (mkEntry ⟨0, "t"⟩ JsVal.null JsVal.null JsVal.null JsVal.null)).length ≤ 50 ∧
    (addLogs [⟨⟨1, "u"⟩, JsVal.str "a", JsVal.str "b", JsVal.str "high", JsVal.undefined⟩]
      (List.replicate 50 (mkEntry ⟨0, "t"⟩ JsVal.null JsVal.null JsVal.null JsVal.null))).length
      = 50 :=
  ⟨by simp,
    (addLog_capacity_and_recency
      [⟨⟨1, "u"⟩, JsVal.str "a", JsVal.str "b", JsVal.str "high", JsVal.undefined⟩]
      (List.replicate 50 (mkEntry ⟨0, "t"⟩ JsVal.null JsVal.null JsVal.null JsVal.null))
      (by simp)).2.2.2 (by simp)⟩

/-- C2. Whatever the buffer holds, after the `log_message` handler has run on
an event with the given title, message, severity and attachment, the first
entry has exactly that title, message and severity, the attachment of the event
(`null` when the event has none), and the id and time read from the client
clock; the entries behind it are the first 49 of the previous buffer, in their
previous order. -/
theorem onLogMessage_newest_entry (clk : Clock) (t m sv a : JsVal) (prev : List LogEntry) :
    onLogMessage clk (Payload.fields t m sv a) prev
      = LogEntry.mk clk.now t m sv (if a = JsVal.undefined then JsVal.null else a)
          (JsVal.str clk.timeString) :: prev.take 49 ∧
    (prev.take 49).IsPrefix prev := by
  refine ⟨?_, List.take_prefix 49 prev⟩
  cases a <;> simp [onLogMessage, addLog, slice0, mkEntry, JsVal.orDefault]

/-- A handler of the `img` leaves the `App` cells alone. -/
theorem onImg_app (f : VideoFeedState → VideoFeedState) (sc : Screen) :
    (onImg f sc).app = sc.app := by
  unfold onImg
  split
  · split <;> rfl
  · rfl

/-- Only a toggle changes `streaming`. -/
theorem step_streaming (sc : Screen) (e : Event) :
    (sc.step e).app.streaming
      = xor sc.app.streaming (decide (e = Event.toggleStream)) := by
  cases e <;> simp [Screen.step, toggleStream, onImg_app]

/-- The value of `streaming` after a run is fixed by the parity of the toggles. -/
theorem run_streaming (es : List Event) (sc : Screen) :
    (Screen.run es sc).app.streaming
      = xor sc.app.streaming (decide (toggleCount es % 2 = 1)) := by
  induction es generalizing sc with
  | nil => simp [Screen.run, toggleCount]
  | cons e es ih =>
    have hstep : Screen.run (e :: es) sc = Screen.run es (sc.step e) := rfl
    rw [hstep, ih, step_streaming]
    by_cases he : e = Event.toggleStream
    · subst he
      have hc : toggleCount (Event.toggleStream :: es) = toggleCount es + 1 := by
        simp [toggleCount]
      rw [hc]
      rcases Nat.mod_two_eq_zero_or_one (toggleCount es) with h | h
      · have h2 : (toggleCount es + 1) % 2 = 1 := by omega
        simp [h, h2]
      · have h2 : (toggleCount es + 1) % 2 = 0 := by omega
        simp [h, h2]
    · have hc : toggleCount (e :: es) = toggleCount es := by
        simp [toggleCount, List.count_cons, he]
      rw [hc]
      simp [he]

/-- C3, as amended. After any sequence of stream toggles, tab changes,
frame-load signals and frame-error signals, the `isConnected` flag handed to
`VideoFeed` equals `streaming`, which is true exactly when the stream has been
toggled an odd number of times: error signals have no part in it. -/
theorem isConnected_iff_streaming (es : List Event) :
    (videoFeedProps (Screen.run es Screen.init).app).isConnected
      = (Screen.run es Screen.init).app.streaming ∧
    ((videoFeedProps (Screen.run es Screen.init).app).isConnected = true ↔
      toggleCount es % 2 = 1) := by
  refine ⟨rfl, ?_⟩
  have h := run_streaming es Screen.init
  simp only [videoFeedProps]
  rw [h]
  simp [Screen.init, AppState.init]

/-- C3 fails as stated: after the stream is toggled on and the `img` signals an
error, the error flag is set while `isConnected` is still true. -/
theorem connected_despite_error :
    ¬ ConnectedIffActiveAndNoError [Event.toggleStream, Event.frameError] ∧
    (videoFeedProps (Screen.run [Event.toggleStream, Event.frameError] Screen.init).app).isConnected
      = true ∧
    (Screen.run [Event.toggleStream, Event.frameError] Screen.init).feed
      = some { isLoading := true, error := true, fullScreen := false } := by
  refine ⟨?_, ?_, ?_⟩
  · unfold ConnectedIffActiveAndNoError
    decide
  · decide
  · decide

/-- Rounding a value of `[a, b + 1/2)` gives an integer of `[a, b]`. -/
theorem mathRound_bounds (a b : Int) (x : ℚ) (hlo : (a : ℚ) ≤ x) (hhi : x < (b : ℚ) + 1 / 2) :
    a ≤ mathRound x ∧ mathRound x ≤ b := by
  unfold mathRound
  constructor
  · apply Int.le_floor.mpr
    linarith
  · have h : Int.floor (x + 1 / 2) < b + 1 := by
      apply Int.floor_lt.mpr
      push_cast
      linarith
    omega

/-- C4, as amended. A status-poll response is handled the same way whether
streaming is on or off: when `camera_connected` is truthy the gauges are
redrawn (fps within 28..32, cpu within 15..25, for draws in `[0, 1)`),
otherwise Stats is unchanged; `defects` and `streaming` are never changed, a
failed poll changes nothing, and the `fetchStats` timer is created by the
polling effect for either value of `streaming`. -/
theorem fetchStats_regardless_of_streaming (cc : JsVal) (r1 r2 : ℚ) (s : AppState) (b : Bool)
    (h1 : 0 ≤ r1 ∧ r1 < 1) (h2 : 0 ≤ r2 ∧ r2 < 1) :
    (fetchStats (PollOutcome.body cc) r1 r2 { s with streaming := b }).streaming = b ∧
    (fetchStats (PollOutcome.body cc) r1 r2 { s with streaming := b }).stats.defects
      = s.stats.defects ∧
    (fetchStats (PollOutcome.body cc) r1 r2 { s with streaming := b }).stats
      = (if cc.truthy then refreshGauges r1 r2 s.stats else s.stats) ∧
    (28 ≤ (refreshGauges r1 r2 s.stats).fps ∧ (refreshGauges r1 r2 s.stats).fps ≤ 32) ∧
    (15 ≤ (refreshGauges r1 r2 s.stats).cpu ∧ (refreshGauges r1 r2 s.stats).cpu ≤ 25) ∧
    fetchStats PollOutcome.failed r1 r2 { s with streaming := b } = { s with streaming := b } ∧
    (Timer.fetchStatsInterval, 2000) ∈ pollingEffect b := by
  refine ⟨?_, ?_, ?_, ?_, ?_, rfl, ?_⟩
  · by_cases h : cc.truthy = true <;> simp [fetchStats, h, setStats]
  · by_cases h : cc.truthy = true <;> simp [fetchStats, h, setStats, refreshGauges]
  · by_cases h : cc.truthy = true <;> simp [fetchStats, h, setStats]
  · apply mathRound_bounds
    · push_cast
      linarith [h1.1]
    · push_cast
      linarith [h1.2]
  · apply mathRound_bounds
    · push_cast
      linarith [h2.1]
    · push_cast
      linarith [h2.2]
  · simp [pollingEffect]

/-- C4, as amended, at the first render: streaming is off, the camera is
reported connected and both draws are 0. -/
theorem fetchStats_regardless_of_streaming_witness :
    ((0 : ℚ) ≤ 0 ∧ (0 : ℚ) < 1) ∧
    (fetchStats (PollOutcome.body (JsVal.bool true)) 0 0
      { AppState.init with streaming := false }).stats.defects = 0 :=
  ⟨by norm_num,
    (fetchStats_regardless_of_streaming (JsVal.bool true) 0 0 AppState.init false
      (by norm_num) (by norm_num)).2.1⟩

/-- C4 fails as stated: at the first render streaming is off, yet a poll
response reporting a connected camera replaces the gauges 0 and 0 by 28 and 15
(both draws being 0), and the polling effect run with streaming off has created
the `fetchStats` timer. -/
theorem poll_applied_while_streaming_off :
    AppState.init.streaming = false ∧
    AppState.init.stats = { fps := 0, cpu := 0, defects := 0 } ∧
    (fetchStats (PollOutcome.body (JsVal.bool true)) 0 0 AppState.init).stats
      = { fps := 28, cpu := 15, defects := 0 } ∧
    (Timer.fetchStatsInterval, 2000) ∈ pollingEffect AppState.init.streaming := by
  refine ⟨rfl, rfl, ?_, ?_⟩
  · simp [fetchStats, JsVal.truthy, setStats, refreshGauges, mathRound, AppState.init]
    norm_num [Int.floor_eq_iff]
  · simp [pollingEffect]

/-- The flags after a run of signals, in terms of the flags before it. -/
theorem signals_flags (sigs : List Signal) (v : VideoFeedState) :
    (VideoFeed.signals sigs v).isLoading = (v.isLoading && !decide (Signal.load ∈ sigs)) ∧
    (VideoFeed.signals sigs v).error = (v.error || decide (Signal.error ∈ sigs)) ∧
    (VideoFeed.signals sigs v).fullScreen = v.fullScreen := by
  induction sigs generalizing v with
  | nil => simp [VideoFeed.signals]
  | cons g gs ih =>
    have hstep : VideoFeed.signals (g :: gs) v = VideoFeed.signals gs (VideoFeed.signal v g) := rfl
    rw [hstep]
    obtain ⟨hl, he, hf⟩ := ih (VideoFeed.signal v g)
    rw [hl, he, hf]
    rcases v with ⟨l, e, f⟩
    cases g <;> cases l <;> cases e <;>
      by_cases h1 : Signal.load ∈ gs <;> by_cases h2 : Signal.error ∈ gs <;>
      simp [VideoFeed.signal, VideoFeed.onLoad, VideoFeed.onError, h1, h2]

/-- C5, as amended. After any sequence of frame-load and frame-error signals
for the current `streamUrl`, `isLoading` is false exactly when a load signal
has been received and `error` is true exactly when an error signal has been
received: the two flags are never both true once a load has been received,
while error signals alone leave both true. The spinner and the error overlay
are never shown together. -/
theorem flags_after_signals (sigs : List Signal) (v : VideoFeedState) (p : VideoFeedProps) :
    (VideoFeed.signals sigs (VideoFeed.streamUrlEffect v)).isLoading
      = !decide (Signal.load ∈ sigs) ∧
    (VideoFeed.signals sigs (VideoFeed.streamUrlEffect v)).error
      = decide (Signal.error ∈ sigs) ∧
    ((VideoFeed.signals sigs (VideoFeed.streamUrlEffect v)).isLoading &&
        (VideoFeed.signals sigs (VideoFeed.streamUrlEffect v)).error)
      = (decide (Signal.error ∈ sigs) && !decide (Signal.load ∈ sigs)) ∧
    (VideoFeed.spinnerShown p (VideoFeed.signals sigs (VideoFeed.streamUrlEffect v)) &&
        VideoFeed.errorShown p (VideoFeed.signals sigs (VideoFeed.streamUrlEffect v)))
      = false := by
  obtain ⟨hl, he, _⟩ := signals_flags sigs (VideoFeed.streamUrlEffect v)
  have hl2 : (VideoFeed.signals sigs (VideoFeed.streamUrlEffect v)).isLoading
      = !decide (Signal.load ∈ sigs) := by
    rw [hl]
    simp [VideoFeed.streamUrlEffect]
  have he2 : (VideoFeed.signals sigs (VideoFeed.streamUrlEffect v)).error
      = decide (Signal.error ∈ sigs) := by
    rw [he]
    simp [VideoFeed.streamUrlEffect]
  refine ⟨hl2, he2, ?_, ?_⟩
  · rw [hl2, he2, Bool.and_comm]
  · unfold VideoFeed.spinnerShown VideoFeed.errorShown
    cases (VideoFeed.signals sigs (VideoFeed.streamUrlEffect v)).isLoading <;>
      cases (VideoFeed.signals sigs (VideoFeed.streamUrlEffect v)).error <;>
      cases p.isConnected <;> rfl

/-- C5 fails as stated: an error signal right after the `streamUrl` effect
leaves `isLoading` true next to `error`. -/
theorem loading_and_error_both_true :
    (VideoFeed.onError VideoFeed.mount).isLoading = true ∧
    (VideoFeed.onError VideoFeed.mount).error = true ∧
    VideoFeed.signals [Signal.error] (VideoFeed.streamUrlEffect VideoFeedState.init)
      = { isLoading := true, error := true, fullScreen := false } := by
  decide

/-- C6. Whatever `isLoading` and `error` hold, a render whose `streamUrl`
differs from that of the previous render leaves `isLoading = true` and
`error = false`; `fullScreen` keeps its value. -/
theorem streamUrl_change_resets_flags (old new : VideoFeedProps) (v : VideoFeedState)
    (h : new.streamUrl ≠ old.streamUrl) :
    (VideoFeed.rerender old new v).isLoading = true ∧
    (VideoFeed.rerender old new v).error = false ∧
    (VideoFeed.rerender old new v).fullScreen = v.fullScreen := by
  simp [VideoFeed.rerender, h, VideoFeed.streamUrlEffect]

/-- C6 at a stream switched on after an error was recorded for the previous
URL. -/
theorem streamUrl_change_resets_flags_witness :
    (videoFeedProps (toggleStream AppState.init)).streamUrl
      ≠ (videoFeedProps AppState.init).streamUrl ∧
    (VideoFeed.rerender (videoFeedProps AppState.init) (videoFeedProps (toggleStream AppState.init))
      { isLoading := false, error := true, fullScreen := false }).error = false :=
  ⟨by decide,
    (streamUrl_change_resets_flags (videoFeedProps AppState.init)
      (videoFeedProps (toggleStream AppState.init))
      { isLoading := false, error := true, fullScreen := false } (by decide)).2.1⟩

/-- What one `addLog` call does to the first entry and to the rest. -/
theorem addLog_eq_cons (clk : Clock) (t m sv a : JsVal) (prev : List LogEntry) :
    addLog clk t m sv a prev = mkEntry clk t m sv a :: prev.take 49 := by
  simp [addLog, slice0]

/-- C7. When the upload request resolves: with an ok response carrying a
non-empty `image_url` the preview selection becomes that URL and the newest log
entry has severity "medium" and that URL as attachment; with an ok response
whose `image_url` is missing or falsy, a non-ok response, or a thrown error,
the newest entry has severity "high" and the preview selection is unchanged.
The handler as a whole is the progress entry followed by this resolution, and
the progress entry does not touch the preview selection. -/
theorem upload_outcome (c1 c2 : Clock) (s t : AppState) (file : Nat) (u : String) (v : JsVal)
    (statusText message : String) (hu : u ≠ "") (hv : v.truthy = false) :
    ((uploadResolve c2 (UploadOutcome.ok (JsVal.str u)) t).debugImage = JsVal.str u ∧
      (uploadResolve c2 (UploadOutcome.ok (JsVal.str u)) t).logs
        = LogEntry.mk c2.now (JsVal.str "调试") (JsVal.str "图片检测完成") (JsVal.str "medium")
            (JsVal.str u) (JsVal.str c2.timeString) :: t.logs.take 49) ∧
    ((uploadResolve c2 (UploadOutcome.ok v) t).debugImage = t.debugImage ∧
      (uploadResolve c2 (UploadOutcome.ok v) t).logs
        = LogEntry.mk c2.now (JsVal.str "错误") (JsVal.str "未返回图片地址") (JsVal.str "high")
            JsVal.null (JsVal.str c2.timeString) :: t.logs.take 49) ∧
    ((uploadResolve c2 (UploadOutcome.notOk statusText) t).debugImage = t.debugImage ∧
      (uploadResolve c2 (UploadOutcome.notOk statusText) t).logs
        = LogEntry.mk c2.now (JsVal.str "错误") (JsVal.str ("上传失败: " ++ statusText))
            (JsVal.str "high") JsVal.null (JsVal.str c2.timeString) :: t.logs.take 49) ∧
    ((uploadResolve c2 (UploadOutcome.threw message) t).debugImage = t.debugImage ∧
      (uploadResolve c2 (UploadOutcome.threw message) t).logs
        = LogEntry.mk c2.now (JsVal.str "错误") (JsVal.str ("连接失败: " ++ message))
            (JsVal.str "high") JsVal.null (JsVal.str c2.timeString) :: t.logs.take 49) ∧
    (∀ out, onUploadChange (some file) c1 c2 out s = uploadResolve c2 out (uploadBegin c1 s)) ∧
    (uploadBegin c1 s).debugImage = s.debugImage := by
  refine ⟨⟨?_, ?_⟩, ⟨?_, ?_⟩, ⟨rfl, ?_⟩, ⟨rfl, ?_⟩, fun _ => rfl, rfl⟩
  · simp [uploadResolve, JsVal.truthy, hu, setLogs, setDebugImage]
  · simp [uploadResolve, JsVal.truthy, hu, setLogs, setDebugImage, addLog_eq_cons, mkEntry,
      JsVal.orDefault]
  · simp [uploadResolve, hv, setLogs]
  · simp [uploadResolve, hv, setLogs, addLog_eq_cons, mkEntry, JsVal.orDefault]
  · simp [uploadResolve, setLogs, addLog_eq_cons, mkEntry, JsVal.orDefault]
  · simp [uploadResolve, setLogs, addLog_eq_cons, mkEntry, JsVal.orDefault]

/-- C7 at the response `{image_url: "http://x/y.jpg"}` on the first render. -/
theorem upload_outcome_witness :
    ("http://x/y.jpg" ≠ "" ∧ JsVal.undefined.truthy = false) ∧
    (uploadResolve ⟨2, "b"⟩ (UploadOutcome.ok (JsVal.str "http://x/y.jpg"))
      AppState.init).debugImage = JsVal.str "http://x/y.jpg" :=
  ⟨⟨by decide, rfl⟩,
    (upload_outcome ⟨1, "a"⟩ ⟨2, "b"⟩ AppState.init AppState.init 0 "http://x/y.jpg"
      JsVal.undefined "Bad Gateway" "Failed to fetch" (by decide) rfl).1.1⟩

/-- C8. Whatever the edit buffer holds, a settings save whose response has a
`status` other than "updated" puts exactly one new entry, of severity "high",
at the front of the log buffer, and leaves `conf` and `imgsz` as they were;
with `status` equal to "updated" the one new entry has severity "info". In both
cases nothing else in `App` changes and `loading` ends false. -/
theorem saveSettings_outcome (clk : Clock) (p : SettingsPanelState) (s : AppState)
    (status : JsVal) (h : status ≠ JsVal.str "updated") :
    saveSettings clk (SaveOutcome.body status) p s
      = ({ conf := p.conf, imgsz := p.imgsz, loading := false },
         { s with logs := (LogEntry.mk clk.now (JsVal.str "错误") (JsVal.str "保存失败")
             (JsVal.str "high") JsVal.null (JsVal.str clk.timeString) :: s.logs.take 49) }) ∧
    saveSettings clk (SaveOutcome.body (JsVal.str "updated")) p s
      = ({ conf := p.conf, imgsz := p.imgsz, loading := false },
         { s with logs := (LogEntry.mk clk.now (JsVal.str "配置") (JsVal.str "系统参数已保存")
             (JsVal.str "info") JsVal.null (JsVal.str clk.timeString) :: s.logs.take 49) }) := by
  constructor
  · simp [saveSettings, saveResolve, saveBegin, h, setLogs, addLog_eq_cons, mkEntry,
      JsVal.orDefault]
  · simp [saveSettings, saveResolve, saveBegin, setLogs, addLog_eq_cons, mkEntry,
      JsVal.orDefault]

/-- C8 at the response `{status: "failed"}`, with the initial edit buffer. -/
theorem saveSettings_outcome_witness :
    JsVal.str "failed" ≠ JsVal.str "updated" ∧
    saveSettings ⟨7, "10:00:00"⟩ (SaveOutcome.body (JsVal.str "failed"))
        SettingsPanelState.init AppState.init
      = ({ conf := JsVal.num (1 / 4), imgsz := JsVal.num 640, loading := false },
         { AppState.init with logs := [LogEntry.mk 7 (JsVal.str "错误") (JsVal.str "保存失败")
             (JsVal.str "high") JsVal.null (JsVal.str "10:00:00")] }) :=
  ⟨by decide,
    (saveSettings_outcome ⟨7, "10:00:00"⟩ SettingsPanelState.init AppState.init
      (JsVal.str "failed") (by decide)).1⟩

/-- C9. For `conf` in `[0.05, 0.95]` and `imgsz` among 320, 640 and 1280: when
the edit buffer holding these values is saved and a backend that answers with
the saved body is loaded from, the edit buffer after the load holds the saved
values, whatever it held before the load; the save itself leaves them in
place. -/
theorem settings_round_trip (c i : ℚ) (p q : SettingsPanelState) (clk : Clock)
    (out : SaveOutcome) (s : AppState)
    (hc : 1 / 20 ≤ c ∧ c ≤ 19 / 20) (hi : i = 320 ∨ i = 640 ∨ i = 1280)
    (hp : p.conf = JsVal.num c ∧ p.imgsz = JsVal.num i) :
    loadSettings (LoadOutcome.body (saveBody p).conf (saveBody p).imgsz) q
      = { conf := JsVal.num c, imgsz := JsVal.num i, loading := q.loading } ∧
    (saveSettings clk out p s).1.conf = JsVal.num c ∧
    (saveSettings clk out p s).1.imgsz = JsVal.num i := by
  have hc0 : c ≠ 0 := by
    intro h0
    rw [h0] at hc
    norm_num at hc
  have hi0 : i ≠ 0 := by
    rcases hi with h | h | h <;> rw [h] <;> norm_num
  refine ⟨?_, ?_, ?_⟩
  · simp [loadSettings, saveBody, hp.1, hp.2, JsVal.truthy, hc0, hi0]
  · simp [saveSettings, saveResolve, saveBegin, hp.1]
  · simp [saveSettings, saveResolve, saveBegin, hp.2]

/-- C9 at `conf = 0.4`, `imgsz = 640`, loaded into the initial edit buffer. -/
theorem settings_round_trip_witness :
    (((1 : ℚ) / 20 ≤ 2 / 5 ∧ (2 : ℚ) / 5 ≤ 19 / 20) ∧
      ((640 : ℚ) = 320 ∨ (640 : ℚ) = 640 ∨ (640 : ℚ) = 1280)) ∧
    loadSettings (LoadOutcome.body
        (saveBody { conf := JsVal.num (2 / 5), imgsz := JsVal.num 640, loading := false }).conf
        (saveBody { conf := JsVal.num (2 / 5), imgsz := JsVal.num 640, loading := false }).imgsz)
        SettingsPanelState.init
      = { conf := JsVal.num (2 / 5), imgsz := JsVal.num 640,
          loading := SettingsPanelState.init.loading } :=
  ⟨⟨by norm_num, by norm_num⟩,
    (settings_round_trip (2 / 5) 640
      { conf := JsVal.num (2 / 5), imgsz := JsVal.num 640, loading := false }
      SettingsPanelState.init ⟨0, ""⟩ (SaveOutcome.body (JsVal.str "updated")) AppState.init
      (by norm_num) (by norm_num) ⟨rfl, rfl⟩).1⟩

/-- The element at a position of a mapped array. -/
theorem mapWithIndexFrom_getElem_opt (k : Nat) (ls : List RawLog) (i : Nat) :
    (mapWithIndexFrom k ls)[i]? = (ls[i]?).map (fun l => withIndexId l (k + i)) := by
  induction ls generalizing k i with
  | nil => simp [mapWithIndexFrom]
  | cons l ls ih =>
    cases i with
    | zero => simp [mapWithIndexFrom]
    | succ j =>
      simp only [mapWithIndexFrom, List.getElem?_cons_succ]
      rw [ih]
      congr 1
      funext x
      congr 1
      omega

/-- The length of a mapped array. -/
theorem mapWithIndexFrom_length (k : Nat) (ls : List RawLog) :
    (mapWithIndexFrom k ls).length = ls.length := by
  induction ls generalizing k with
  | nil => rfl
  | cons l ls ih => simp [mapWithIndexFrom, ih]

/-- C10. With a response `{logs: L}`, the log sequence after the fetch does not
depend on the sequence before it: it has as many entries as `L`, and its entry
at each position is the entry of `L` there with `id` set to the position. So two
fetches in a row with the same `L` show the same sequence, and nothing of the
previous sequence is kept. -/
theorem refreshLogs_full_replace (ls : List RawLog) (prev other : List LogEntry) :
    refreshLogs (LogsOutcome.body (some ls)) prev
      = refreshLogs (LogsOutcome.body (some ls)) other ∧
    refreshLogs (LogsOutcome.body (some ls)) (refreshLogs (LogsOutcome.body (some ls)) prev)
      = refreshLogs (LogsOutcome.body (some ls)) prev ∧
    (refreshLogs (LogsOutcome.body (some ls)) prev).length = ls.length ∧
    (∀ i, (refreshLogs (LogsOutcome.body (some ls)) prev)[i]?
      = (ls[i]?).map (fun l => LogEntry.mk i l.title l.message l.severity l.attachment l.time)) := by
  refine ⟨rfl, rfl, mapWithIndexFrom_length 0 ls, ?_⟩
  intro i
  simp only [refreshLogs]
  rw [mapWithIndexFrom_getElem_opt]
  simp [withIndexId]

/-- C11, as amended. For a `log_message` event that is missing a required field:
when the payload is null or undefined the handler leaves the log buffer
unchanged; when the payload has fields but its title, message or severity is
absent, the handler puts a new entry first, with the absent fields left
undefined and the id and time of the client clock, in front of the first 49
previous entries, so that a buffer of fewer than 50 entries grows by one. -/
theorem onLogMessage_keeps_incomplete_event (clk : Clock) (data : Payload)
    (prev : List LogEntry) (h : data.incomplete = true) :
    (data = Payload.nullish → onLogMessage clk data prev = prev) ∧
    (∀ t m sv a, data = Payload.fields t m sv a →
      onLogMessage clk data prev = mkEntry clk t m sv a :: prev.take 49 ∧
      ((mkEntry clk t m sv a).title = JsVal.undefined ∨
        (mkEntry clk t m sv a).message = JsVal.undefined ∨
        (mkEntry clk t m sv a).severity = JsVal.undefined) ∧
      ((mkEntry clk t m sv a).id = clk.now ∧
        (mkEntry clk t m sv a).time = JsVal.str clk.timeString) ∧
      (onLogMessage clk data prev).length = min (prev.length + 1) 50 ∧
      (prev.length < 50 → onLogMessage clk data prev ≠ prev)) := by
  constructor
  · intro hd
    subst hd
    rfl
  · intro t m sv a hd
    subst hd
    have heq : onLogMessage clk (Payload.fields t m sv a) prev
        = mkEntry clk t m sv a :: prev.take 49 := by
      simp [onLogMessage, addLog_eq_cons]
    have hlen : (onLogMessage clk (Payload.fields t m sv a) prev).length
        = min (prev.length + 1) 50 := by
      rw [heq]
      simp
      omega
    refine ⟨heq, ?_, ⟨rfl, rfl⟩, hlen, ?_⟩
    · have h3 : (t = JsVal.undefined ∨ m = JsVal.undefined) ∨ sv = JsVal.undefined := by
        simpa [Payload.incomplete] using h
      exact or_assoc.mp h3
    · intro hlt hfix
      rw [hfix] at hlen
      omega

/-- C11, as amended, at a null payload and at an event that carries only a
message, each arriving at an empty buffer. -/
theorem onLogMessage_keeps_incomplete_event_witness :
    (Payload.nullish.incomplete = true ∧
      (Payload.fields JsVal.undefined (JsVal.str "m") JsVal.undefined
        JsVal.undefined).incomplete = true) ∧
    onLogMessage ⟨1, "9:00:00"⟩ Payload.nullish [] = [] ∧
    onLogMessage ⟨1, "9:00:00"⟩
        (Payload.fields JsVal.undefined (JsVal.str "m") JsVal.undefined JsVal.undefined) []
      = [mkEntry ⟨1, "9:00:00"⟩ JsVal.undefined (JsVal.str "m") JsVal.undefined
          JsVal.undefined] :=
  ⟨⟨rfl, rfl⟩,
    (onLogMessage_keeps_incomplete_event ⟨1, "9:00:00"⟩ Payload.nullish [] rfl).1 rfl,
    ((onLogMessage_keeps_incomplete_event ⟨1, "9:00:00"⟩
      (Payload.fields JsVal.undefined (JsVal.str "m") JsVal.undefined JsVal.undefined) []
      rfl).2 JsVal.undefined (JsVal.str "m") JsVal.undefined JsVal.undefined rfl).1⟩

/-- C11 fails as stated: an event without a title, arriving at an empty buffer,
leaves a buffer of one entry whose title is undefined. -/
theorem incomplete_event_is_appended :
    onLogMessage ⟨1, "9:00:00"⟩
        (Payload.fields JsVal.undefined (JsVal.str "m") (JsVal.str "high") JsVal.undefined) []
      = [LogEntry.mk 1 JsVal.undefined (JsVal.str "m") (JsVal.str "high") JsVal.null
          (JsVal.str "9:00:00")] ∧
    onLogMessage ⟨1, "9:00:00"⟩
        (Payload.fields JsVal.undefined (JsVal.str "m") (JsVal.str "high") JsVal.undefined) []
      ≠ [] := by
  constructor
  · rfl
  · simp [onLogMessage, addLog_eq_cons]

/-- One `addLog` call leaves at most 50 entries, whatever it started from. -/
theorem addLog_length_le (clk : Clock) (t m sv a : JsVal) (prev : List LogEntry) :
    (addLog clk t m sv a prev).length ≤ 50 := by
  simp [addLog, slice0]

/-- A fetch that delivers an array leaves as many entries as the array has. -/
theorem refreshLogs_length (ls : List RawLog) (prev : List LogEntry) :
    (refreshLogs (LogsOutcome.body (some ls)) prev).length = ls.length :=
  mapWithIndexFrom_length 0 ls

/-- One operation keeps the log sequence within the larger of 50 and the bound
on what fetches deliver. -/
theorem apply_logs_length (op : AppOp) (s : AppState) (N : Nat)
    (hop : op.fetched ≤ N) (hs : s.logs.length ≤ max 50 N) :
    (op.apply s).logs.length ≤ max 50 N := by
  have h50 : ∀ (clk : Clock) (t m sv a : JsVal),
      (addLog clk t m sv a s.logs).length ≤ max 50 N := fun clk t m sv a =>
    le_trans (addLog_length_le clk t m sv a s.logs) (le_max_left 50 N)
  cases op with
  | toggleStream => exact hs
  | logMessage clk data =>
    cases data with
    | nullish => exact hs
    | fields t m sv a => exact h50 clk t m sv a
  | demoTick r0 r1 r2 clk =>
    simp only [AppOp.apply, demoTick]
    split
    · exact h50 _ _ _ _ _
    · exact hs
  | uploadBegin c1 => exact h50 _ _ _ _ _
  | uploadResolve c2 out =>
    cases out with
    | threw message => exact h50 _ _ _ _ _
    | notOk statusText => exact h50 _ _ _ _ _
    | ok url =>
      simp only [AppOp.apply, uploadResolve]
      split
      · exact h50 _ _ _ _ _
      · exact h50 _ _ _ _ _
  | saveResolve clk out p =>
    cases out with
    | threw message => exact h50 _ _ _ _ _
    | body status =>
      simp only [AppOp.apply, saveResolve]
      split
      · exact h50 _ _ _ _ _
      · exact h50 _ _ _ _ _
  | refreshLogs out =>
    cases out with
    | failed => exact hs
    | body logs =>
      cases logs with
      | none => exact hs
      | some ls =>
        have hlen : (refreshLogs (LogsOutcome.body (some ls)) s.logs).length = ls.length :=
          refreshLogs_length ls s.logs
        have hN : ls.length ≤ N := hop
        show (refreshLogs (LogsOutcome.body (some ls)) s.logs).length ≤ max 50 N
        rw [hlen]
        exact le_trans hN (le_max_right 50 N)
  | fetchStats out r1 r2 =>
    cases out with
    | failed => exact hs
    | body cc =>
      simp only [AppOp.apply, fetchStats]
      split
      · exact hs
      · exact hs

/-- A run keeps the log sequence within the larger of 50 and the bound on what
its fetches deliver. -/
theorem runOps_logs_length (ops : List AppOp) (s : AppState) (N : Nat)
    (hops : ∀ op ∈ ops, op.fetched ≤ N) (hs : s.logs.length ≤ max 50 N) :
    (runOps ops s).logs.length ≤ max 50 N := by
  induction ops generalizing s with
  | nil => exact hs
  | cons op ops ih =>
    have hstep : runOps (op :: ops) s = runOps ops (op.apply s) := rfl
    rw [hstep]
    apply ih
    · intro o ho
      exact hops o (List.mem_cons_of_mem op ho)
    · exact apply_logs_length op s N (hops op (List.mem_cons_self op ops)) hs

/-- C12, as amended. In every state reached from the initial empty log sequence
by any interleaving of push events, action outcomes, demo ticks and historical
log fetches, the log sequence holds at most `max 50 N` entries, where `N`
bounds the number of entries the fetches delivered: at most 50 as long as no
fetch delivered more than 50. A fetch leaves exactly as many entries as the
response has, and every `addLog` call leaves at most 50. -/
theorem logs_length_bound (ops : List AppOp) (N : Nat)
    (hops : ∀ op ∈ ops, op.fetched ≤ N) :
    (runOps ops AppState.init).logs.length ≤ max 50 N ∧
    (∀ (ls : List RawLog),
      (runOps (ops ++ [AppOp.refreshLogs (LogsOutcome.body (some ls))]) AppState.init).logs.length
        = ls.length) ∧
    (∀ (clk : Clock) (t m sv a : JsVal),
      (runOps (ops ++ [AppOp.logMessage clk (Payload.fields t m sv a)])
        AppState.init).logs.length ≤ 50) := by
  refine ⟨?_, ?_, ?_⟩
  · apply runOps_logs_length ops AppState.init N hops
    simp [AppState.init]
  · intro ls
    simp only [runOps, List.foldl_append, List.foldl_cons, List.foldl_nil, AppOp.apply]
    exact refreshLogs_length ls _
  · intro clk t m sv a
    simp only [runOps, List.foldl_append, List.foldl_cons, List.foldl_nil, AppOp.apply,
      setLogs, onLogMessage]
    exact addLog_length_le clk t m sv a _

/-- C12, as amended, at a push event followed by a fetch of two entries. -/
theorem logs_length_bound_witness :
    (∀ op ∈ [AppOp.logMessage ⟨1, "a"⟩ Payload.nullish,
        AppOp.refreshLogs (LogsOutcome.body (some
          [⟨JsVal.undefined, JsVal.null, JsVal.null, JsVal.null, JsVal.null, JsVal.null⟩,
           ⟨JsVal.undefined, JsVal.null, JsVal.null, JsVal.null, JsVal.null, JsVal.null⟩]))],
      op.fetched ≤ 2) ∧
    (runOps [AppOp.logMessage ⟨1, "a"⟩ Payload.nullish,
        AppOp.refreshLogs (LogsOutcome.body (some
          [⟨JsVal.undefined, JsVal.null, JsVal.null, JsVal.null, JsVal.null, JsVal.null⟩,
           ⟨JsVal.undefined, JsVal.null, JsVal.null, JsVal.null, JsVal.null, JsVal.null⟩]))]
      AppState.init).logs.length ≤ max 50 2 :=
  ⟨by simp [AppOp.fetched],
    (logs_length_bound [AppOp.logMessage ⟨1, "a"⟩ Payload.nullish,
        AppOp.refreshLogs (LogsOutcome.body (some
          [⟨JsVal.undefined, JsVal.null, JsVal.null, JsVal.null, JsVal.null, JsVal.null⟩,
           ⟨JsVal.undefined, JsVal.null, JsVal.null, JsVal.null, JsVal.null, JsVal.null⟩]))]
      2 (by simp [AppOp.fetched])).1⟩

/-- C12 fails as stated: a historical log fetch that delivers 51 entries to the
initial state leaves a log sequence of 51 entries. -/
theorem fetch_exceeds_capacity :
    (runOps [AppOp.refreshLogs (LogsOutcome.body (some (List.replicate 51
        ⟨JsVal.undefined, JsVal.str "t", JsVal.str "m", JsVal.str "info", JsVal.undefined,
          JsVal.str "9:00:00"⟩)))] AppState.init).logs.length = 51 ∧
    ¬ (runOps [AppOp.refreshLogs (LogsOutcome.body (some (List.replicate 51
        ⟨JsVal.undefined, JsVal.str "t", JsVal.str "m", JsVal.str "info", JsVal.undefined,
          JsVal.str "9:00:00"⟩)))] AppState.init).logs.length ≤ 50 := by
  have h : (runOps [AppOp.refreshLogs (LogsOutcome.body (some (List.replicate 51
        ⟨JsVal.undefined, JsVal.str "t", JsVal.str "m", JsVal.str "info", JsVal.undefined,
          JsVal.str "9:00:00"⟩)))] AppState.init).logs.length = 51 := by
    simp [runOps, AppOp.apply, refreshLogs, mapWithIndexFrom_length]
  exact ⟨h, by omega⟩

/-- What a demo tick does to the defects counter. -/
theorem demoTick_defects (r0 r1 r2 : ℚ) (clk : Clock) (s : AppState) :
    (demoTick r0 r1 r2 clk s).stats.defects
      = s.stats.defects + (if s.streaming && decide (19 / 20 < r0) then 1 else 0) := by
  unfold demoTick
  split <;> simp [setStats, setLogs]

/-- What the end of a poll does to the defects counter. -/
theorem fetchStats_defects (out : PollOutcome) (r1 r2 : ℚ) (s : AppState) :
    (fetchStats out r1 r2 s).stats.defects = s.stats.defects := by
  cases out with
  | failed => rfl
  | body cc =>
    simp only [fetchStats]
    split <;> simp [setStats, refreshGauges]

/-- No operation lowers the defects counter. -/
theorem apply_defects_le (op : AppOp) (s : AppState) :
    s.stats.defects ≤ (op.apply s).stats.defects := by
  cases op with
  | toggleStream => exact le_refl _
  | logMessage clk data => exact le_refl _
  | demoTick r0 r1 r2 clk =>
    show s.stats.defects ≤ (demoTick r0 r1 r2 clk s).stats.defects
    rw [demoTick_defects]
    exact Nat.le_add_right _ _
  | uploadBegin c1 => exact le_refl _
  | uploadResolve c2 out =>
    cases out with
    | threw message => exact le_refl _
    | notOk statusText => exact le_refl _
    | ok url =>
      simp only [AppOp.apply, uploadResolve]
      split <;> exact le_refl _
  | saveResolve clk out p =>
    cases out with
    | threw message => exact le_refl _
    | body status =>
      simp only [AppOp.apply, saveResolve]
      split <;> exact le_refl _
  | refreshLogs out => exact le_refl _
  | fetchStats out r1 r2 =>
    show s.stats.defects ≤ (fetchStats out r1 r2 s).stats.defects
    rw [fetchStats_defects]

/-- C13. The defects counter never goes down: the poll refresh keeps it exactly
(for every response, and in the updater applied after a `camera_connected`
response), a demo tick adds one when it fires and nothing otherwise, and over
any sequence of the operations of `App` the final value is at least the
starting one. -/
theorem defects_monotone (ops : List AppOp) (s : AppState) (st : Stats) (out : PollOutcome)
    (r0 r1 r2 : ℚ) (clk : Clock) :
    (refreshGauges r1 r2 st).defects = st.defects ∧
    (fetchStats out r1 r2 s).stats.defects = s.stats.defects ∧
    (demoTick r0 r1 r2 clk s).stats.defects
      = s.stats.defects + (if s.streaming && decide (19 / 20 < r0) then 1 else 0) ∧
    s.stats.defects ≤ (demoTick r0 r1 r2 clk s).stats.defects ∧
    s.stats.defects ≤ (runOps ops s).stats.defects := by
  refine ⟨rfl, fetchStats_defects out r1 r2 s, demoTick_defects r0 r1 r2 clk s, ?_, ?_⟩
  · rw [demoTick_defects]
    exact Nat.le_add_right _ _
  · induction ops generalizing s with
    | nil => exact le_refl _
    | cons op ops ih =>
      have hstep : runOps (op :: ops) s = runOps ops (op.apply s) := rfl
      rw [hstep]
      exact le_trans (apply_defects_le op s) (ih (op.apply s))

/-- The slider reports values of `[0.05, 0.95]` only. -/
theorem sliderValue_inRange (k : Fin 19) :
    confInRange (JsVal.num (sliderValue k)) = true := by
  have hk : (k.val : ℚ) ≤ 18 := by
    have h := k.isLt
    exact_mod_cast Nat.lt_succ_iff.mp h
  have hk0 : (0 : ℚ) ≤ (k.val : ℚ) := Nat.cast_nonneg _
  simp only [confInRange, sliderValue, Bool.and_eq_true, decide_eq_true_eq]
  constructor <;> linarith

/-- The resolution buttons set one of the three sizes only. -/
theorem resolution_inSet (b : Fin 3) :
    imgszInSet (JsVal.num (resolutionSizes.get ⟨b.val, b.isLt⟩)) = true := by
  fin_cases b <;> simp [imgszInSet, resolutionSizes]

/-- One operation with an in-range response keeps the edit buffer in range. -/
theorem apply_settingsInRange (op : SettingsOp) (p : SettingsPanelState)
    (hop : op.inRange = true) (hp : settingsInRange p = true) :
    settingsInRange (op.apply p) = true := by
  simp only [settingsInRange, Bool.and_eq_true] at hp ⊢
  cases op with
  | slide k => exact ⟨sliderValue_inRange k, hp.2⟩
  | pick b => exact ⟨hp.1, resolution_inSet b⟩
  | load out =>
    cases out with
    | failed => exact hp
    | body c i =>
      simp only [SettingsOp.inRange, LoadOutcome.inRange, Bool.and_eq_true, Bool.or_eq_true,
        Bool.not_eq_true_eq_eq_false, Bool.not_eq_eq_eq_not, Bool.not_true] at hop
      simp only [SettingsOp.apply, loadSettings]
      by_cases hc : c.truthy = true <;> by_cases hi : i.truthy = true <;>
        simp_all

/-- A run whose loads carry in-range responses keeps the edit buffer in range. -/
theorem runSettings_inRange (ops : List SettingsOp) (p : SettingsPanelState)
    (hops : ∀ op ∈ ops, op.inRange = true) (hp : settingsInRange p = true) :
    settingsInRange (runSettings ops p) = true := by
  induction ops generalizing p with
  | nil => exact hp
  | cons op ops ih =>
    have hstep : runSettings (op :: ops) p = runSettings ops (op.apply p) := rfl
    rw [hstep]
    apply ih
    · intro o ho
      exact hops o (List.mem_cons_of_mem op ho)
    · exact apply_settingsInRange op p (hops op (List.mem_cons_self op ops)) hp

/-- C14, as amended. In every state of the settings panel reached from the
initial values by slider edits, resolution-button clicks and settings loads
whose response carries, for each of `conf` and `imgsz`, either a falsy value
or a value within its range, `conf` lies in `[0.05, 0.95]` and `imgsz` is one
of 320, 640, 1280. A load stores any truthy `conf` and `imgsz` it is sent,
unchecked. -/
theorem settings_inRange_reachable (ops : List SettingsOp) (c i : JsVal)
    (p : SettingsPanelState)
    (hops : ∀ op ∈ ops, op.inRange = true) (hc : c.truthy = true) (hi : i.truthy = true) :
    settingsInRange (runSettings ops SettingsPanelState.init) = true ∧
    (loadSettings (LoadOutcome.body c i) p).conf = c ∧
    (loadSettings (LoadOutcome.body c i) p).imgsz = i := by
  refine ⟨?_, ?_, ?_⟩
  · apply runSettings_inRange ops SettingsPanelState.init hops
    simp only [settingsInRange, SettingsPanelState.init, confInRange, imgszInSet]
    norm_num
  · simp [loadSettings, hc, hi]
  · simp [loadSettings, hc, hi]

/-- C14, as amended, at a slider edit, a button click and a load of
`{conf: 0.4, imgsz: 1280}`. -/
theorem settings_inRange_reachable_witness :
    ((∀ op ∈ [SettingsOp.slide 3, SettingsOp.pick 0,
        SettingsOp.load (LoadOutcome.body (JsVal.num (2 / 5)) (JsVal.num 1280))],
        op.inRange = true) ∧
      (JsVal.num (2 / 5)).truthy = true ∧ (JsVal.num 1280).truthy = true) ∧
    settingsInRange (runSettings [SettingsOp.slide 3, SettingsOp.pick 0,
        SettingsOp.load (LoadOutcome.body (JsVal.num (2 / 5)) (JsVal.num 1280))]
      SettingsPanelState.init) = true :=
  ⟨⟨by
      simp [SettingsOp.inRange, LoadOutcome.inRange, confInRange, imgszInSet, JsVal.truthy]
      norm_num,
    by simp [JsVal.truthy], by simp [JsVal.truthy]⟩,
    (settings_inRange_reachable [SettingsOp.slide 3, SettingsOp.pick 0,
        SettingsOp.load (LoadOutcome.body (JsVal.num (2 / 5)) (JsVal.num 1280))]
      (JsVal.num (2 / 5)) (JsVal.num 1280) SettingsPanelState.init
      (by
        simp [SettingsOp.inRange, LoadOutcome.inRange, confInRange, imgszInSet, JsVal.truthy]
        norm_num)
      (by simp [JsVal.truthy]) (by simp [JsVal.truthy])).1⟩

/-- C14 fails as stated: a load of the response `{conf: 2, imgsz: 100}` into the
initial edit buffer leaves `conf = 2` and `imgsz = 100`, outside the ranges. -/
theorem load_leaves_ranges :
    runSettings [SettingsOp.load (LoadOutcome.body (JsVal.num 2) (JsVal.num 100))]
        SettingsPanelState.init
      = { conf := JsVal.num 2, imgsz := JsVal.num 100, loading := false } ∧
    confInRange (JsVal.num 2) = false ∧
    imgszInSet (JsVal.num 100) = false ∧
    settingsInRange (runSettings
      [SettingsOp.load (LoadOutcome.body (JsVal.num 2) (JsVal.num 100))]
      SettingsPanelState.init) = false := by
  have hrun : runSettings [SettingsOp.load (LoadOutcome.body (JsVal.num 2) (JsVal.num 100))]
        SettingsPanelState.init
      = { conf := JsVal.num 2, imgsz := JsVal.num 100, loading := false } := by
    simp [runSettings, SettingsOp.apply, loadSettings, JsVal.truthy, SettingsPanelState.init]
  have hconf : confInRange (JsVal.num 2) = false := by
    simp only [confInRange]
    norm_num
  have himg : imgszInSet (JsVal.num 100) = false := by
    simp only [imgszInSet]
    norm_num
  refine ⟨hrun, hconf, himg, ?_⟩
  rw [hrun]
  simp [settingsInRange, hconf]

end HKTauri
